import Mathlib

/-!
Shallow embedding of `src/streamlink/stream/dash.py`.

The module defines four cooperating pieces:
  * `DASHStreamWriter.fetch` / `DASHStreamWriter.write` — per-segment download
    with a retry budget and chunked buffer writes guarded by a closed flag;
  * `DASHStreamWorker.iter_segments` / `DASHStreamWorker.reload` — the
    per-representation scheduling loop with manifest reload and backoff;
  * `DASHStream.parse_manifest` — stream-variant selection over a manifest;
  * `DASHStream.open` — pipeline construction for a chosen variant.

Machine integers do not occur; the backoff factor is a Python float computed
from exact decimal literals and is embedded as a rational.  Laziness and
network effects are made explicit: the outcome of each HTTP interaction is a
parameter of the embedded function.
-/

namespace Dash

/-- A representation inside an adaptation set (`dash_manifest.Representation`
as used by `dash.py`): a stable id, a MIME type string, naming hints
(`height`, `bandwidth`, where `0` embeds a Python-falsy value such as
`None`/`0`), and the segment sequences produced by `segments(init=...)`.
Segments are abstracted to their identities (`Nat`). -/
structure Representation where
  id : Nat
  mimeType : String
  height : Nat
  bandwidth : Nat
  segmentsInit : List Nat
  segmentsNoInit : List Nat
deriving Repr, DecidableEq

/-- `representation.segments(init=init)` from the manifest model, as consumed
by `iter_segments`. -/
def Representation.segments (r : Representation) (init : Bool) : List Nat :=
  if init then r.segmentsInit else r.segmentsNoInit

/-- An adaptation set: a content-protection flag and its representations. -/
structure AdaptationSet where
  contentProtection : Bool
  representations : List Representation
deriving Repr, DecidableEq

/-- A period: its duration in seconds and its adaptation sets. -/
structure Period where
  duration : ℚ
  adaptationSets : List AdaptationSet
deriving Repr, DecidableEq

/-- A manifest snapshot (`MPD`): type tag (`"static"`/`"dynamic"`), publish
timestamp, minimum update period in seconds, and the ordered periods. -/
structure MPD where
  mpdType : String
  publishTime : ℚ
  minimumUpdatePeriod : ℚ
  periods : List Period
deriving Repr, DecidableEq

/-- The linear scan of `iter_segments` lines 66–70: iterate over every
adaptation set of the first period and every representation, assigning
`representation = rep` on every id match (no break, so the last match wins). -/
def findRepresentation (asets : List AdaptationSet) (rid : Nat) :
    Option Representation :=
  asets.foldl
    (fun acc aset =>
      aset.representations.foldl
        (fun acc2 rep => if rep.id == rid then some rep else acc2) acc)
    none

/-- `refresh_wait = max(minimumUpdatePeriod, periods[0].duration) or 5`
(lines 71–72): Python `or` replaces a zero maximum by `5`. -/
def refreshWait (mpd : MPD) (p0 : Period) : ℚ :=
  let m := max mpd.minimumUpdatePeriod p0.duration
  if m = 0 then 5 else m

/-- Outcome of the HTTP fetch + XML parse performed inside `reload`
(lines 96–101): either a parsed fresh manifest or a raised `StreamError`. -/
inductive FetchOutcome where
  | success (newMpd : MPD)
  | failure
deriving Repr, DecidableEq

/-- Result value of `DASHStreamWorker.reload`: Python returns `None` when
closed, else `changed : bool`; a transport/parse failure raises. -/
inductive ReloadRet where
  | none
  | changed (b : Bool)
deriving Repr, DecidableEq

/-- `DASHStreamWorker.reload` (lines 90–107).  Input: the closed flag, the
current `self.mpd`, and the outcome of the network fetch.  Output: either a
raised `StreamError` (`Except.error`) or the return value, paired in both
cases with the worker's `self.mpd` afterwards.  The snapshot is replaced
exactly when `new_mpd.publishTime > self.mpd.publishTime`. -/
def reload (closed : Bool) (mpd : MPD) (fetch : FetchOutcome) :
    Except Unit ReloadRet × MPD :=
  if closed then (.ok .none, mpd)
  else
    match fetch with
    | .failure => (.error (), mpd)
    | .success newMpd =>
        let chg : Bool := decide (newMpd.publishTime > mpd.publishTime)
        (.ok (.changed chg), if chg then newMpd else mpd)

/-- Truthiness of the value `iter_segments` receives from `self.reload()`:
`if not self.reload()` takes the backoff branch unless the value is `True`. -/
def ReloadRet.isTruthy : ReloadRet → Bool
  | .none => false
  | .changed b => b

/-- Observable outcome of one iteration of the `while not self.closed` body of
`iter_segments` (lines 64–88), entered with the closed flag unset. -/
structure CycleOutcome where
  /-- segments yielded during this cycle, in order -/
  yielded : List Nat
  /-- `self.mpd` after the cycle -/
  newMpd : MPD
  /-- `back_off_factor` after the cycle -/
  newBackOff : ℚ
  /-- `init` after the cycle -/
  newInit : Bool
  /-- the generator executed `return` (static branch) -/
  stopped : Bool
  /-- an exception escaped the loop body (uncaught `StreamError`) -/
  raised : Bool
  /-- `self.reload()` was invoked during this cycle -/
  reloadAttempted : Bool
deriving Repr, DecidableEq

/-- One iteration of the scheduling loop of `iter_segments` (lines 64–88) with
the closed flag unset throughout the cycle.  `none` embeds the `IndexError` of
`self.mpd.periods[0]` on a period-less manifest.  The representation is looked
up by id; when absent the whole `if representation:` block — segment yielding,
reload, and the static `return` alike — is skipped and only the sleep happens.
When present, segments are yielded, then a dynamic manifest reloads (backoff
`max(back_off_factor * 1.3, 10.0)` on a falsy result, reset to 1 otherwise)
while a non-dynamic one returns. -/
def iterCycle (rid : Nat) (init : Bool) (backOff : ℚ) (mpd : MPD)
    (fetch : FetchOutcome) : Option CycleOutcome :=
  match mpd.periods with
  | [] => none
  | p0 :: _ =>
      some <|
        match findRepresentation p0.adaptationSets rid with
        | none =>
            { yielded := [], newMpd := mpd, newBackOff := backOff,
              newInit := init, stopped := false, raised := false,
              reloadAttempted := false }
        | some rep =>
            let segs := rep.segments init
            if mpd.mpdType == "dynamic" then
              match reload false mpd fetch with
              | (.error _, mpd2) =>
                  { yielded := segs, newMpd := mpd2, newBackOff := backOff,
                    newInit := init, stopped := false, raised := true,
                    reloadAttempted := true }
              | (.ok ret, mpd2) =>
                  if ret.isTruthy then
                    { yielded := segs, newMpd := mpd2, newBackOff := 1,
                      newInit := false, stopped := false, raised := false,
                      reloadAttempted := true }
                  else
                    { yielded := segs, newMpd := mpd2,
                      newBackOff := max (backOff * (13 / 10)) 10,
                      newInit := false, stopped := false, raised := false,
                      reloadAttempted := true }
            else
              { yielded := segs, newMpd := mpd, newBackOff := backOff,
                newInit := init, stopped := true, raised := false,
                reloadAttempted := false }

/-- The `back_off_factor` update of lines 82–85 in isolation:
`1` after a truthy (`changed = True`) reload, else
`max(back_off_factor * 1.3, 10.0)`. -/
def backOffUpdate (changed : Bool) (b : ℚ) : ℚ :=
  if changed then 1 else max (b * (13 / 10)) 10

/-- The variant descriptor built by `parse_manifest` line 173:
`DASHStream(session, mpd, vid, aud)` with `vid`/`aud` possibly `None`. -/
structure StreamSel where
  video : Option Representation
  audio : Option Representation
deriving Repr, DecidableEq

/-- `str.startswith(pre)`: the character sequence of `pre` is a prefix of the
character sequence of `s` (extensionally `String.startsWith`, spelled out on
the underlying character lists). -/
def strStartsWith (s pre : String) : Bool :=
  pre.data.isPrefixOf s.data

/-- The collection loop of `parse_manifest` lines 157–164: walk the first
period's adaptation sets in order; a set with the content-protection flag
raises `PluginError` (embedded as `Except.error`); otherwise its
representations go to the video list when the MIME type starts with
`"video"`, else to the audio list when it starts with `"audio"`. -/
def collectReps : List AdaptationSet →
    Except Unit (List Representation × List Representation)
  | [] => .ok ([], [])
  | aset :: rest =>
      if aset.contentProtection then .error ()
      else
        match collectReps rest with
        | .error e => .error e
        | .ok (v, a) =>
            .ok (aset.representations.filter
                   (fun r => strStartsWith r.mimeType "video") ++ v,
                 aset.representations.filter
                   (fun r => !strStartsWith r.mimeType "video" &&
                             strStartsWith r.mimeType "audio") ++ a)

/-- Lines 166–170: a track type with no representations is replaced by the
single choice `[None]`; otherwise each representation is a choice. -/
def choices (l : List Representation) : List (Option Representation) :=
  match l with
  | [] => [none]
  | _ => l.map some

/-- The video name component of line 177:
`"{:0.0f}{}".format(vid.height or vid.bandwidth, "p" if vid.height else "k")`
— the height when truthy with suffix `"p"`, else the bandwidth with `"k"`. -/
def videoName (v : Representation) : String :=
  if v.height ≠ 0 then toString v.height ++ "p" else toString v.bandwidth ++ "k"

/-- Bandwidth of a possibly-absent audio choice (the `aud.bandwidth` access of
line 179; `aud` is never `None` there because the audio-suffix branch requires
more than one audio choice). -/
def audBandwidth : Option Representation → Nat
  | some a => a.bandwidth
  | none => 0

/-- The variant name of lines 174–180: the `stream_name` parts list —
the video component when `vid` is truthy, plus `"a{bandwidth}k"` when the
audio choice list has more than one element — joined with `"+"`. -/
def variantName (vid aud : Option Representation) (audioCount : Nat) :
    String :=
  let parts :=
    (match vid with
     | some v => [videoName v]
     | none => []) ++
    (if audioCount > 1 then ["a" ++ toString (audBandwidth aud) ++ "k"]
     else [])
  String.intercalate "+" parts

/-- `DASHStream.parse_manifest` lines 154–181 after the manifest has been
fetched and parsed.  `none` embeds the `IndexError` of `mpd.periods[0]`.
A protected adaptation set raises (`Except.error`); otherwise the result is
the ordered sequence of `ret[name] = stream` assignments produced by iterating
`itertools.product(video, audio)` (Python dict semantics make a later
assignment with a duplicate name overwrite an earlier one; the assignment
sequence itself is returned here). -/
def parse_manifest (mpd : MPD) :
    Option (Except Unit (List (String × StreamSel))) :=
  match mpd.periods with
  | [] => none
  | p0 :: _ =>
      some <|
        match collectReps p0.adaptationSets with
        | .error e => .error e
        | .ok (video, audio) =>
            let vcs := choices video
            let acs := choices audio
            .ok <|
              vcs.flatMap fun vid =>
                acs.map fun aud =>
                  (variantName vid aud acs.length,
                   { video := vid, audio := aud })

/-- Abstract handle returned by `DASHStream.open` (lines 183–197): the muxer
over both readers, a single reader, or Python's implicit `None`. -/
inductive OpenResult where
  | muxed
  | videoOnly
  | audioOnly
deriving Repr, DecidableEq

/-- `DASHStream.open`: which pipeline handle is returned and how many
`DASHStreamReader`s are instantiated and opened.  A video reader is opened
when the video representation is present, an audio reader when the audio one
is; both ⇒ muxer, exactly one ⇒ that reader, neither ⇒ `None` with no reader
opened. -/
def DASHStream.open (s : StreamSel) : Option OpenResult × Nat :=
  match s.video, s.audio with
  | some _, some _ => (some .muxed, 2)
  | some _, none => (some .videoOnly, 1)
  | none, some _ => (some .audioOnly, 1)
  | none, none => (none, 0)

/-- `DASHStreamWriter.fetch` (lines 25–42) for one segment.  The network is a
parameter: `net k` tells whether the `k`-th download attempt (counting from
`attempt`) succeeds; a failed attempt raises `StreamError`, which is caught
and answered by `self.fetch(segment, retries - 1)`.  The result is the
response (identified by the index of the succeeding attempt) together with
the number of download attempts performed.  `retries = 0` embeds every
Python-falsy budget (`0` and the default `None`). -/
def fetchAux (closed : Bool) (net : Nat → Bool) (attempt : Nat) :
    Nat → Option Nat × Nat
  | 0 => (none, 0)
  | r + 1 =>
      if closed then (none, 0)
      else if net attempt then (some attempt, 1)
      else
        let r2 := fetchAux closed net (attempt + 1) r
        (r2.1, r2.2 + 1)

/-- `DASHStreamWriter.fetch` entered from the top: attempt numbering starts
at `0`. -/
def fetch (closed : Bool) (net : Nat → Bool) (retries : Nat) :
    Option Nat × Nat :=
  fetchAux closed net 0 retries

/-- `DASHStreamWriter.write` (lines 44–52).  `chunks` is the chunk sequence
`res.iter_content(chunk_size)` yields; `closedAt i` is the value of
`self.closed` observed by the check guarding the `i`-th chunk.  Returns the
chunks written to `self.reader.buffer`, in order: each chunk is written only
after its own check observes the flag unset, and the first check observing it
set returns without writing that chunk or any later one. -/
def writeAux (closedAt : Nat → Bool) (i : Nat) : List Nat → List Nat
  | [] => []
  | c :: rest =>
      if !closedAt i then c :: writeAux closedAt (i + 1) rest
      else []

/-- `DASHStreamWriter.write` entered from the top: checks are numbered from
`0`. -/
def write (closedAt : Nat → Bool) (chunks : List Nat) : List Nat :=
  writeAux closedAt 0 chunks

/-! Concrete fixtures used by counterexamples and witnesses. -/

/-- A 720p video representation with id 1. -/
def repV720 : Representation :=
  { id := 1, mimeType := "video/mp4", height := 720, bandwidth := 2000000,
    segmentsInit := [100, 101], segmentsNoInit := [102] }

/-- A 1080p video representation with id 2. -/
def repV1080 : Representation :=
  { id := 2, mimeType := "video/mp4", height := 1080, bandwidth := 4000000,
    segmentsInit := [200, 201], segmentsNoInit := [202] }

/-- A 128kbps audio representation with id 3. -/
def repA128 : Representation :=
  { id := 3, mimeType := "audio/mp4", height := 0, bandwidth := 128000,
    segmentsInit := [300], segmentsNoInit := [301] }

/-- Unprotected video adaptation set. -/
def asetVideo : AdaptationSet :=
  { contentProtection := false, representations := [repV720, repV1080] }

/-- Unprotected audio adaptation set. -/
def asetAudio : AdaptationSet :=
  { contentProtection := false, representations := [repA128] }

/-- A DRM-protected adaptation set. -/
def asetProtected : AdaptationSet :=
  { contentProtection := true, representations := [repV720] }

/-- First period holding the video and audio sets. -/
def periodMain : Period :=
  { duration := 0, adaptationSets := [asetVideo, asetAudio] }

/-- A dynamic manifest over `periodMain`. -/
def mpdDyn : MPD :=
  { mpdType := "dynamic", publishTime := 100, minimumUpdatePeriod := 5,
    periods := [periodMain] }

/-- A static manifest over `periodMain`. -/
def mpdStatic : MPD :=
  { mpdType := "static", publishTime := 100, minimumUpdatePeriod := 5,
    periods := [periodMain] }

/-- A static manifest whose only adaptation set is empty: no video and no
audio representations. -/
def mpdNoTracks : MPD :=
  { mpdType := "static", publishTime := 0, minimumUpdatePeriod := 0,
    periods := [{ duration := 0,
                  adaptationSets := [{ contentProtection := false,
                                       representations := [] }] }] }

/-- A manifest with an unprotected audio set alongside a protected one. -/
def mpdProtected : MPD :=
  { mpdType := "static", publishTime := 0, minimumUpdatePeriod := 0,
    periods := [{ duration := 0,
                  adaptationSets := [asetAudio, asetProtected] }] }

/-- Decidable equality for `Except`, needed to evaluate `parse_manifest`
results on concrete manifests. -/
instance exceptDecEq {e a : Type} [DecidableEq e] [DecidableEq a] :
    DecidableEq (Except e a) := fun x y =>
  match x, y with
  | .error u, .error v =>
      if h : u = v then isTrue (h ▸ rfl)
      else isFalse (fun hc => h (Except.error.inj hc))
  | .error _, .ok _ => isFalse (fun hc => Except.noConfusion hc)
  | .ok _, .error _ => isFalse (fun hc => Except.noConfusion hc)
  | .ok u, .ok v =>
      if h : u = v then isTrue (h ▸ rfl)
      else isFalse (fun hc => h (Except.ok.inj hc))

/-! Helper lemmas. -/

/-- The download-attempt count of `fetchAux` never exceeds the budget. -/
theorem fetchAux_count_le (closed : Bool) (net : Nat → Bool) :
    ∀ (r i : Nat), (fetchAux closed net i r).2 ≤ r := by
  intro r
  induction r with
  | zero => intro i; simp [fetchAux]
  | succ r ih =>
      intro i
      cases closed with
      | false =>
          cases hn : net i with
          | false => simpa [fetchAux, hn] using Nat.succ_le_succ (ih (i + 1))
          | true => simp [fetchAux, hn]
      | true => simp [fetchAux]

/-- A protected adaptation set anywhere in the list makes `collectReps`
raise. -/
theorem collectReps_error_of_protected (asets : List AdaptationSet)
    (h : ∃ a ∈ asets, a.contentProtection = true) :
    collectReps asets = .error () := by
  induction asets with
  | nil => simp at h
  | cons aset rest ih =>
      rcases h with ⟨a, ha, hprot⟩
      rcases List.mem_cons.mp ha with rfl | hmem
      · simp [collectReps, hprot]
      · by_cases hc : aset.contentProtection
        · simp [collectReps, hc]
        · have hrec := ih ⟨a, hmem, hprot⟩
          simp [collectReps, hc, hrec]

/-- Length of the cross-product list built by `parse_manifest`. -/
theorem length_flatMap_map {α β γ : Type} (l1 : List α) (l2 : List β)
    (g : α → β → γ) :
    (l1.flatMap fun v => l2.map (g v)).length = l1.length * l2.length := by
  induction l1 with
  | nil => simp
  | cons hd tl ih =>
      simp [ih, Nat.succ_mul, Nat.add_comm]

/-- Second projection of the cross-product list built by `parse_manifest`. -/
theorem map_snd_flatMap_map {α β γ δ : Type} (l1 : List α) (l2 : List β)
    (f : α → β → γ) (g : α → β → δ) :
    ((l1.flatMap fun v => l2.map fun a => (f v a, g v a)).map Prod.snd) =
      l1.flatMap fun v => l2.map fun a => g v a := by
  induction l1 with
  | nil => simp
  | cons hd tl ih =>
      simp [ih, List.map_map]

/-- `writeAux` writes exactly the chunks preceding the first check that
observes the closed flag. -/
theorem writeAux_eq_take (closedAt : Nat → Bool) :
    ∀ (chunks : List Nat) (i j : Nat), j ≤ chunks.length →
      (∀ m, m < j → closedAt (i + m) = false) →
      (j < chunks.length → closedAt (i + j) = true) →
      writeAux closedAt i chunks = chunks.take j := by
  intro chunks
  induction chunks with
  | nil =>
      intro i j hj _ _
      have hj0 : j = 0 := Nat.le_zero.mp (by simpa using hj)
      subst hj0
      simp [writeAux]
  | cons c rest ih =>
      intro i j hj hopen hcl
      cases j with
      | zero =>
          have hc : closedAt i = true := by simpa using hcl (by simp)
          simp [writeAux, hc]
      | succ j' =>
          have hc : closedAt i = false := by simpa using hopen 0 (Nat.succ_pos j')
          have hrec := ih (i + 1) j' (Nat.le_of_succ_le_succ hj)
            (fun m hm => by
              have := hopen (m + 1) (Nat.succ_lt_succ hm)
              simpa [Nat.add_assoc, Nat.add_comm 1 m] using this)
            (fun hlt => by
              have := hcl (Nat.succ_lt_succ hlt)
              simpa [Nat.add_assoc, Nat.add_comm 1 j'] using this)
          simp [writeAux, hc, hrec]

/-! Claim theorems. -/

/-- C1: the claim states the backoff multiplier starts at 1, grows by ×1.3 on
every unchanged or failed reload, and never exceeds 10.  The code computes
`back_off_factor = max(back_off_factor * 1.3, 10.0)` (a `max` where a cap
needs a `min`), so the very first unchanged reload jumps the multiplier from
1 to 10 instead of 1.3, and the second raises it to 13 > 10, after which it
grows without bound.  This theorem evaluates the scheduling cycle on a
dynamic manifest whose reload returns an unchanged publish timestamp twice in
a row. -/
theorem C1_backoff_exceeds_cap :
    backOffUpdate false 1 = 10 ∧
    backOffUpdate false (backOffUpdate false 1) = 13 ∧
    (iterCycle 1 true 1 mpdDyn (.success mpdDyn)).map CycleOutcome.newBackOff
      = some 10 ∧
    (iterCycle 1 false 10 mpdDyn (.success mpdDyn)).map CycleOutcome.newBackOff
      = some 13 ∧
    ¬ ((13 : ℚ) ≤ 10) := by
  refine ⟨?_, ?_, ?_, ?_, by norm_num⟩ <;>
    norm_num [backOffUpdate, iterCycle, reload, findRepresentation, mpdDyn,
      periodMain, asetVideo, asetAudio, repV720, repV1080, repA128,
      Representation.segments, ReloadRet.isTruthy, max_def]

/-- C2 counterexample: the claim states that a cycle whose bound
representation id is absent proceeds to the next manifest reload when the
manifest is dynamic and stops when it is static.  On a static manifest with
an absent id the scheduler does not stop, and on a dynamic one it does not
even invoke `reload` (the reload call sits inside the `if representation:`
block). -/
theorem C2_counterexample :
    (iterCycle 99 true 1 mpdStatic (.success mpdStatic)).map
        CycleOutcome.stopped = some false ∧
    (iterCycle 99 true 1 mpdDyn (.success mpdDyn)).map
        CycleOutcome.reloadAttempted = some false := by
  constructor <;> decide

/-- C2 (amended): a cycle whose bound representation id is absent from the
first period yields no segments and does not raise, but neither reloads nor
stops, whatever the manifest type: the whole cycle leaves every piece of
state unchanged and the loop merely sleeps and retries the lookup on the same
manifest snapshot. -/
theorem C2_missing_rep_cycle (rid : Nat) (init : Bool) (b : ℚ) (mpd : MPD)
    (p0 : Period) (rest : List Period) (fo : FetchOutcome)
    (hp : mpd.periods = p0 :: rest)
    (hr : findRepresentation p0.adaptationSets rid = none) :
    iterCycle rid init b mpd fo =
      some { yielded := [], newMpd := mpd, newBackOff := b, newInit := init,
             stopped := false, raised := false, reloadAttempted := false } := by
  simp [iterCycle, hp, hr]

/-- C2 witness: representation id 99 is absent from the static fixture. -/
theorem C2_missing_rep_cycle_witness :
    iterCycle 99 true 1 mpdStatic (.success mpdStatic) =
      some { yielded := [], newMpd := mpdStatic, newBackOff := 1,
             newInit := true, stopped := false, raised := false,
             reloadAttempted := false } :=
  C2_missing_rep_cycle 99 true 1 mpdStatic periodMain [] (.success mpdStatic)
    rfl rfl

/-- C3 counterexample: the claim states a failed reload is treated like an
unchanged one — backoff grows and no fatal error escapes.  On a dynamic
manifest whose reload fetch fails, the `StreamError` raised inside `reload`
is not caught by `iter_segments`, so it propagates, and the backoff
multiplier is left untouched instead of growing. -/
theorem C3_counterexample :
    (iterCycle 1 true 1 mpdDyn .failure).map CycleOutcome.raised
      = some true ∧
    (iterCycle 1 true 1 mpdDyn .failure).map CycleOutcome.newBackOff
      = some 1 := by
  constructor <;> decide

/-- C3 (amended): a reload that fails with a transient fetch/parse error
leaves the current manifest snapshot in place, but the error is not handled:
it propagates out of the scheduling loop, and the backoff multiplier is not
updated. -/
theorem C3_reload_failure_propagates (rid : Nat) (init : Bool) (b : ℚ)
    (mpd : MPD) (p0 : Period) (rest : List Period) (rep : Representation)
    (hp : mpd.periods = p0 :: rest)
    (hr : findRepresentation p0.adaptationSets rid = some rep)
    (hd : mpd.mpdType = "dynamic") :
    iterCycle rid init b mpd .failure =
      some { yielded := rep.segments init, newMpd := mpd, newBackOff := b,
             newInit := init, stopped := false, raised := true,
             reloadAttempted := true } := by
  simp [iterCycle, hp, hr, hd, reload]

/-- C3 witness: a failing reload on the dynamic fixture. -/
theorem C3_reload_failure_propagates_witness :
    iterCycle 1 true 1 mpdDyn .failure =
      some { yielded := repV720.segments true, newMpd := mpdDyn,
             newBackOff := 1, newInit := true, stopped := false,
             raised := true, reloadAttempted := true } :=
  C3_reload_failure_propagates 1 true 1 mpdDyn periodMain [] repV720
    rfl rfl rfl

/-- C4: on a static-type manifest no cycle ever invokes `reload` or raises,
and a cycle that finds the bound representation yields its segment sequence
and then terminates the scheduling loop (the generator returns). -/
theorem C4_static_stops (rid : Nat) (init : Bool) (b : ℚ) (mpd : MPD)
    (fo : FetchOutcome) (hs : mpd.mpdType = "static") :
    (∀ o, iterCycle rid init b mpd fo = some o →
        o.reloadAttempted = false ∧ o.raised = false) ∧
    (∀ p0 rest rep, mpd.periods = p0 :: rest →
        findRepresentation p0.adaptationSets rid = some rep →
        iterCycle rid init b mpd fo =
          some { yielded := rep.segments init, newMpd := mpd, newBackOff := b,
                 newInit := init, stopped := true, raised := false,
                 reloadAttempted := false }) := by
  constructor
  · intro o ho
    cases hper : mpd.periods with
    | nil => simp [iterCycle, hper] at ho
    | cons p0 rest =>
        cases hfind : findRepresentation p0.adaptationSets rid with
        | none =>
            simp [iterCycle, hper, hfind] at ho
            simp [← ho]
        | some rep =>
            simp [iterCycle, hper, hfind, hs] at ho
            simp [← ho]
  · intro p0 rest rep hp hr
    simp [iterCycle, hp, hr, hs]

/-- C4 witness: the static fixture with representation id 1 bound. -/
theorem C4_static_stops_witness :
    iterCycle 1 true 1 mpdStatic (.success mpdStatic) =
      some { yielded := repV720.segments true, newMpd := mpdStatic,
             newBackOff := 1, newInit := true, stopped := true,
             raised := false, reloadAttempted := false } :=
  (C4_static_stops 1 true 1 mpdStatic (.success mpdStatic) rfl).2
    periodMain [] repV720 rfl rfl

/-- C5: with the closed flag unset, a successful reload returns
`changed = (new publish timestamp > old publish timestamp)` and installs the
new snapshot exactly when that strict comparison holds, keeping the old one
otherwise; a failed fetch raises and leaves the old snapshot in place. -/
theorem C5_reload_snapshot (mpd newMpd : MPD) :
    reload false mpd (.success newMpd) =
      (.ok (.changed (decide (newMpd.publishTime > mpd.publishTime))),
       if newMpd.publishTime > mpd.publishTime then newMpd else mpd) ∧
    reload false mpd .failure = (.error (), mpd) := by
  constructor
  · by_cases h : newMpd.publishTime > mpd.publishTime <;> simp [reload, h]
  · rfl

/-- C6: a manifest whose first period contains some adaptation set with the
content-protection flag makes `parse_manifest` raise `PluginError` and return
no variants, even when unprotected sets sit alongside the protected one. -/
theorem C6_protected_rejects (mpd : MPD) (p0 : Period) (rest : List Period)
    (hp : mpd.periods = p0 :: rest)
    (h : ∃ a ∈ p0.adaptationSets, a.contentProtection = true) :
    parse_manifest mpd = some (.error ()) := by
  simp [parse_manifest, hp, collectReps_error_of_protected _ h]

/-- C6 witness: the fixture with an unprotected audio set listed before a
protected set. -/
theorem C6_protected_rejects_witness :
    parse_manifest mpdProtected = some (.error ()) :=
  C6_protected_rejects mpdProtected
    { duration := 0, adaptationSets := [asetAudio, asetProtected] } [] rfl
    ⟨asetProtected, by simp, rfl⟩

/-- C7: when selection succeeds, it produces exactly one variant assignment
per (video-choice × audio-choice) pair — an empty track list contributing the
single absent choice — and each variant's name is the video component (height
with suffix "p" when the height is present, else bandwidth with suffix "k"),
with an audio suffix "a", bandwidth, "k" joined on with "+" exactly when more
than one audio choice exists. -/
theorem C7_variant_product_and_names (mpd : MPD) (p0 : Period)
    (rest : List Period) (video audio : List Representation)
    (hp : mpd.periods = p0 :: rest)
    (hc : collectReps p0.adaptationSets = .ok (video, audio)) :
    ∃ l : List (String × StreamSel),
      parse_manifest mpd = some (.ok l) ∧
      l.length = (choices video).length * (choices audio).length ∧
      (video = [] → choices video = [none]) ∧
      (audio = [] → choices audio = [none]) ∧
      l.map Prod.snd =
        (choices video).flatMap
          (fun vo => (choices audio).map fun ao => StreamSel.mk vo ao) ∧
      ∀ pr ∈ l,
        pr.1 =
          String.intercalate "+"
            ((match pr.2.video with
              | some v =>
                  [if v.height ≠ 0 then toString v.height ++ "p"
                   else toString v.bandwidth ++ "k"]
              | none => []) ++
             (if (choices audio).length > 1 then
                ["a" ++ toString (audBandwidth pr.2.audio) ++ "k"]
              else [])) := by
  refine ⟨(choices video).flatMap fun vid =>
            (choices audio).map fun aud =>
              (variantName vid aud (choices audio).length,
               { video := vid, audio := aud }),
          ?_, ?_, ?_, ?_, ?_, ?_⟩
  · simp [parse_manifest, hp, hc]
  · exact length_flatMap_map _ _ _
  · intro h; simp [choices, h]
  · intro h; simp [choices, h]
  · exact map_snd_flatMap_map _ _ _ _
  · intro pr hpr
    rw [List.mem_flatMap] at hpr
    obtain ⟨vo, _, hpr⟩ := hpr
    rw [List.mem_map] at hpr
    obtain ⟨ao, _, rfl⟩ := hpr
    cases vo <;> rfl

/-- C7 witness: the fixture with 720p and 1080p video representations and one
audio representation. -/
theorem C7_variant_product_and_names_witness :
    ∃ l : List (String × StreamSel),
      parse_manifest mpdStatic = some (.ok l) ∧
      l.length = (choices [repV720, repV1080]).length *
                   (choices [repA128]).length ∧
      ([repV720, repV1080] = ([] : List Representation) →
        choices [repV720, repV1080] = [none]) ∧
      ([repA128] = ([] : List Representation) →
        choices [repA128] = [none]) ∧
      l.map Prod.snd =
        (choices [repV720, repV1080]).flatMap
          (fun vo => (choices [repA128]).map fun ao => StreamSel.mk vo ao) ∧
      ∀ pr ∈ l,
        pr.1 =
          String.intercalate "+"
            ((match pr.2.video with
              | some v =>
                  [if v.height ≠ 0 then toString v.height ++ "p"
                   else toString v.bandwidth ++ "k"]
              | none => []) ++
             (if (choices [repA128]).length > 1 then
                ["a" ++ toString (audBandwidth pr.2.audio) ++ "k"]
              else [])) :=
  C7_variant_product_and_names mpdStatic periodMain [] [repV720, repV1080]
    [repA128] rfl rfl

/-- C8: a segment fetch performs no download attempt when the pipeline is
closed or the retry budget is zero; with budget `r` it performs at most `r`
attempts; and a transport failure on one attempt makes the next call retry
the same segment with the budget decremented by one. -/
theorem C8_fetch_budget (closed : Bool) (net : Nat → Bool) (r : Nat) :
    ((closed = true ∨ r = 0) → fetch closed net r = (none, 0)) ∧
    (fetch closed net r).2 ≤ r ∧
    (∀ i r2, net i = false →
        fetchAux false net i (r2 + 1) =
          ((fetchAux false net (i + 1) r2).1,
           (fetchAux false net (i + 1) r2).2 + 1)) := by
  refine ⟨?_, fetchAux_count_le closed net r 0, ?_⟩
  · rintro (hc | hr)
    · cases r with
      | zero => rfl
      | succ r => simp [fetch, fetchAux, hc]
    · subst hr; rfl
  · intro i r2 hn
    simp [fetchAux, hn]

/-- C8 witness: a closed pipeline, a zero budget, a bounded attempt count,
and one failing attempt followed by a retry with budget 2. -/
theorem C8_fetch_budget_witness :
    fetch true (fun _ => false) 3 = (none, 0) ∧
    fetch false (fun _ => false) 0 = (none, 0) ∧
    (fetch false (fun i => decide (i ≥ 2)) 5).2 ≤ 5 ∧
    fetchAux false (fun _ => false) 0 (2 + 1) =
      ((fetchAux false (fun _ => false) 1 2).1,
       (fetchAux false (fun _ => false) 1 2).2 + 1) :=
  ⟨(C8_fetch_budget true (fun _ => false) 3).1 (Or.inl rfl),
   (C8_fetch_budget false (fun _ => false) 0).1 (Or.inr rfl),
   (C8_fetch_budget false (fun i => decide (i ≥ 2)) 5).2.1,
   (C8_fetch_budget false (fun _ => false) 5).2.2 0 2 rfl⟩

/-- C9: the closed flag is checked before each chunk; when the first `j`
checks observe it unset and the check after them (if any) observes it set,
exactly the first `j` chunks end up in the buffer — everything written before
the flag was observed stays, and nothing is written afterwards. -/
theorem C9_write_prefix (closedAt : Nat → Bool) (chunks : List Nat) (j : Nat)
    (hj : j ≤ chunks.length)
    (hopen : ∀ m, m < j → closedAt m = false)
    (hcl : j < chunks.length → closedAt j = true) :
    write closedAt chunks = chunks.take j := by
  have := writeAux_eq_take closedAt chunks 0 j hj
    (fun m hm => by simpa using hopen m hm)
    (fun hlt => by simpa using hcl hlt)
  simpa [write] using this

/-- C9 witness: the pipeline closes at the third check (index 2), so the
first two of four chunks are delivered. -/
theorem C9_write_prefix_witness :
    write (fun n => decide (n ≥ 2)) [10, 20, 30, 40] =
      List.take 2 [10, 20, 30, 40] :=
  C9_write_prefix (fun n => decide (n ≥ 2)) [10, 20, 30, 40] 2
    (by simp)
    (fun m hm => decide_eq_false (by omega))
    (fun _ => rfl)

/-- C10: opening a variant with neither a video nor an audio representation
instantiates no reader and returns `None`; and selection over a manifest with
no video and no audio representations yields exactly the single empty-named
variant with both choices absent. -/
theorem C10_open_empty_variant (s : StreamSel) (hv : s.video = none)
    (ha : s.audio = none) (mpd : MPD) (p0 : Period) (rest : List Period)
    (hp : mpd.periods = p0 :: rest)
    (hc : collectReps p0.adaptationSets = .ok ([], [])) :
    DASHStream.open s = (none, 0) ∧
    parse_manifest mpd = some (.ok [("", ⟨none, none⟩)]) := by
  constructor
  · obtain ⟨v, a⟩ := s
    cases hv
    cases ha
    rfl
  · simp [parse_manifest, hp, hc, choices, variantName]
    rfl

/-- C10 witness: the all-absent variant and the track-less fixture
manifest. -/
theorem C10_open_empty_variant_witness :
    DASHStream.open ⟨none, none⟩ = (none, 0) ∧
    parse_manifest mpdNoTracks = some (.ok [("", ⟨none, none⟩)]) :=
  C10_open_empty_variant ⟨none, none⟩ rfl rfl mpdNoTracks
    { duration := 0,
      adaptationSets := [{ contentProtection := false,
                           representations := [] }] } [] rfl rfl

end Dash
